import Mathlib

/-!
Formal model of the carrito-control remote-transmitter firmware.

Two source variants are embedded:

* namespace `Ino` — the JC_Button variant (`carrito-control.ino`): per-tick
  debounced queries `pressedFor(HELD_TIME)`, `wasReleased()` and
  `releasedFor(RELEASE_TIME)`; the packet carries no one-shot flags.
* namespace `V3` — the Bounce/BMux variant (final document of
  `unnamed/part_000`): the packet carries the one-shot `stop` and
  `lookAhead` flags, driven by the toggle-and-confirm handlers
  `stopMotion` and `lookAhead`; its `loop` calls only `checkButtState`
  and `checkChanges`.

The button library and the radio are external capabilities, so the per-tick
query results are inputs to the model, and a transmission is recorded as the
frame handed to `_radio.send` together with the acknowledgement the radio
reports.  `millis()` reads are inputs as well, one per call site.
-/

namespace Carrito

namespace Ino

/-- HELD_TIME of carrito-control.ino, in milliseconds. -/
def HELD_TIME : Nat := 250

/-- RELEASE_TIME of carrito-control.ino, in milliseconds. -/
def RELEASE_TIME : Nat := 75

/-- SPEEDINC: the fixed speed increment of one click. -/
def SPEEDINC : Int := 51

/-- TURNINC: the fixed turn increment of one click. -/
def TURNINC : Int := 6

/-- RadioPacket of carrito-control.ino: `serial` and `options` are
unsigned long (32-bit), `speed` and `turn` are int, the holds are bool. -/
structure RadioPacket where
  serial : Nat
  speed : Int
  speed_hold : Bool
  turn : Int
  turn_hold : Bool
  options : Nat
deriving DecidableEq, Repr

/-- The all-zero packet built by the member initializers of `RadioPacket`. -/
def initRadioPacket : RadioPacket := ⟨0, 0, false, 0, false, 0⟩

/-- Per-tick results of the three JC_Button queries one control uses:
`pressedFor(HELD_TIME)`, `wasReleased()`, `releasedFor(RELEASE_TIME)`. -/
structure BtnQ where
  pressedForHeldTime : Bool
  wasReleased : Bool
  releasedForReleaseTime : Bool
deriving DecidableEq, Repr

/-- checkFWD: held ⇒ speed 0 / hold on; release edge ⇒ speed SPEEDINC,
hold off; released for RELEASE_TIME ⇒ speed 0, hold off. -/
def checkFWD (b : BtnQ) (d : RadioPacket) : RadioPacket :=
  let d := if b.pressedForHeldTime then { d with speed := 0, speed_hold := true } else d
  let d := if b.wasReleased then { d with speed := SPEEDINC, speed_hold := false } else d
  if b.releasedForReleaseTime then { d with speed := 0, speed_hold := false } else d

/-- checkREV: same as checkFWD with increment `SPEEDINC * -1`. -/
def checkREV (b : BtnQ) (d : RadioPacket) : RadioPacket :=
  let d := if b.pressedForHeldTime then { d with speed := 0, speed_hold := true } else d
  let d := if b.wasReleased then { d with speed := SPEEDINC * -1, speed_hold := false } else d
  if b.releasedForReleaseTime then { d with speed := 0, speed_hold := false } else d

/-- checkRIGHT: the turn axis, increment `TURNINC`. -/
def checkRIGHT (b : BtnQ) (d : RadioPacket) : RadioPacket :=
  let d := if b.pressedForHeldTime then { d with turn := 0, turn_hold := true } else d
  let d := if b.wasReleased then { d with turn := TURNINC, turn_hold := false } else d
  if b.releasedForReleaseTime then { d with turn := 0, turn_hold := false } else d

/-- checkLEFT: the turn axis, increment `TURNINC * -1`. -/
def checkLEFT (b : BtnQ) (d : RadioPacket) : RadioPacket :=
  let d := if b.pressedForHeldTime then { d with turn := 0, turn_hold := true } else d
  let d := if b.wasReleased then { d with turn := TURNINC * -1, turn_hold := false } else d
  if b.releasedForReleaseTime then { d with turn := 0, turn_hold := false } else d

/-- txBufferChanged: the change detector, an if-chain over the non-serial
fields of `_radioData` (the serial prints are debug logging only). -/
def txBufferChanged (d : RadioPacket) : Bool :=
  if d.speed ≠ 0 then true
  else if d.speed_hold ≠ false then true
  else if d.turn ≠ 0 then true
  else if d.turn_hold ≠ false then true
  else if d.options ≠ 0 then true
  else false

/-- txCommand: stamp `serial` with the current `millis()` read (an unsigned
long, hence the 32-bit reduction) and hand the frame to `_radio.send`.
Returns the updated command state together with the transmitted frame; the
radio's acknowledgement is the caller's input. -/
def txCommand (now : Nat) (d : RadioPacket) : RadioPacket × RadioPacket :=
  let d := { d with serial := now % 4294967296 }
  (d, d)

/-- checkChanges: transmit once when the change detector fires.  The
acknowledgement returned by `txCommand` only selects a debug print, so it
does not appear in the model.  The second component lists the frames sent
during this call. -/
def checkChanges (now : Nat) (d : RadioPacket) : RadioPacket × List RadioPacket :=
  if txBufferChanged d then
    let r := txCommand now d
    (r.1, [r.2])
  else
    (d, [])

/-- Per-tick query results of all four controls. -/
structure TickIn where
  fwd : BtnQ
  rev : BtnQ
  right : BtnQ
  left : BtnQ
deriving DecidableEq, Repr

/-- The encoder part of `loop` in button mode: checkFWD, checkREV,
checkRIGHT, checkLEFT in source order. -/
def encode (i : TickIn) (d : RadioPacket) : RadioPacket :=
  checkLEFT i.left (checkRIGHT i.right (checkREV i.rev (checkFWD i.fwd d)))

/-- One `loop` iteration in button mode: run the four encoders, then
`checkChanges`.  `now` is the `millis()` read a send of this tick uses. -/
def loopTick (now : Nat) (i : TickIn) (d : RadioPacket) :
    RadioPacket × List RadioPacket :=
  checkChanges now (encode i d)

/-- A run of consecutive `loop` iterations; each element provides the
tick's `millis()` read and the four controls' query results.  Returns the
final command state and all transmitted frames in order. -/
def runLoop (d : RadioPacket) : List (Nat × TickIn) → RadioPacket × List RadioPacket
  | [] => (d, [])
  | t :: ts =>
    let r := loopTick t.1 t.2 d
    let r2 := runLoop r.1 ts
    (r2.1, r.2 ++ r2.2)

end Ino

namespace V3

/-- HELD_TIME of the Bounce/BMux variant, in milliseconds. -/
def HELD_TIME : Nat := 1000

/-- SPEEDINC of the Bounce/BMux variant. -/
def SPEEDINC : Int := 5

/-- TURNINC of the Bounce/BMux variant. -/
def TURNINC : Int := 6

/-- RadioPacket of the Bounce/BMux variant: the payload additionally
carries the one-shot `stop` and `lookAhead` flags. -/
structure RadioPacket where
  serial : Nat
  speed : Int
  speed_hold : Bool
  turn : Int
  turn_hold : Bool
  stop : Bool
  lookAhead : Bool
  options : Nat
deriving DecidableEq, Repr

/-- The all-zero packet built by the member initializers. -/
def initRadioPacket : RadioPacket := ⟨0, 0, false, 0, false, false, false, 0⟩

/-- One Bounce control as the encoders see it on a tick: the duration
`held()` reports (0 when not held), the `fell()` and `rose()` edges, and
the public `durationOfPreviousState` counter the hold branches reset. -/
structure BounceBtn where
  held : Nat
  fell : Bool
  rose : Bool
  durationOfPreviousState : Nat
deriving DecidableEq, Repr

/-- checkFWD of the Bounce/BMux variant: the hold branch compares
`held() > HELD_TIME` and resets `durationOfPreviousState`; `fell()` is
the click, `rose()` the release. -/
def checkFWD (b : BounceBtn) (d : RadioPacket) : BounceBtn × RadioPacket :=
  let s := if b.held > HELD_TIME then
      ({ b with durationOfPreviousState := 0 },
       { d with speed := 0, speed_hold := true })
    else (b, d)
  let b := s.1
  let d := s.2
  let d := if b.fell then { d with speed := SPEEDINC, speed_hold := false } else d
  let d := if b.rose then { d with speed := 0, speed_hold := false } else d
  (b, d)

/-- checkREV of the Bounce/BMux variant.  Unlike the other three controls
its hold branch tests only the truthiness of `held()` — any nonzero held
duration fires it. -/
def checkREV (b : BounceBtn) (d : RadioPacket) : BounceBtn × RadioPacket :=
  let s := if b.held ≠ 0 then
      ({ b with durationOfPreviousState := 0 },
       { d with speed := 0, speed_hold := true })
    else (b, d)
  let b := s.1
  let d := s.2
  let d := if b.fell then { d with speed := 0 - SPEEDINC, speed_hold := false } else d
  let d := if b.rose then { d with speed := 0, speed_hold := false } else d
  (b, d)

/-- checkRIGHT of the Bounce/BMux variant. -/
def checkRIGHT (b : BounceBtn) (d : RadioPacket) : BounceBtn × RadioPacket :=
  let s := if b.held > HELD_TIME then
      ({ b with durationOfPreviousState := 0 },
       { d with turn := 0, turn_hold := true })
    else (b, d)
  let b := s.1
  let d := s.2
  let d := if b.fell then { d with turn := TURNINC, turn_hold := false } else d
  let d := if b.rose then { d with turn := 0, turn_hold := false } else d
  (b, d)

/-- checkLEFT of the Bounce/BMux variant. -/
def checkLEFT (b : BounceBtn) (d : RadioPacket) : BounceBtn × RadioPacket :=
  let s := if b.held > HELD_TIME then
      ({ b with durationOfPreviousState := 0 },
       { d with turn := 0, turn_hold := true })
    else (b, d)
  let b := s.1
  let d := s.2
  let d := if b.fell then { d with turn := 0 - TURNINC, turn_hold := false } else d
  let d := if b.rose then { d with turn := 0, turn_hold := false } else d
  (b, d)

/-- txBufferChanged of the Bounce/BMux variant: the same if-chain over
speed, speed_hold, turn, turn_hold and options.  The `stop` and
`lookAhead` fields do not appear in it. -/
def txBufferChanged (d : RadioPacket) : Bool :=
  if d.speed ≠ 0 then true
  else if d.speed_hold ≠ false then true
  else if d.turn ≠ 0 then true
  else if d.turn_hold ≠ false then true
  else if d.options ≠ 0 then true
  else false

/-- txCommand of the Bounce/BMux variant: stamp `serial` with the current
`millis()` read and hand the frame to the radio. -/
def txCommand (now : Nat) (d : RadioPacket) : RadioPacket × RadioPacket :=
  let d := { d with serial := now % 4294967296 }
  (d, d)

/-- checkChanges of the Bounce/BMux variant: transmit once when the change
detector fires; the acknowledgement only selects a debug print. -/
def checkChanges (now : Nat) (d : RadioPacket) : RadioPacket × List RadioPacket :=
  if txBufferChanged d then
    let r := txCommand now d
    (r.1, [r.2])
  else
    (d, [])

/-- One send event: the frame handed to the radio and the acknowledgement
the radio reported for it. -/
structure SendEv where
  frame : RadioPacket
  ack : Bool
deriving DecidableEq, Repr

/-- stopMotion: the Bstop callback.  Arms the `stop` flag and transmits
immediately; iff that send is acknowledged, clears the flag and transmits
once more (the second acknowledgement is bound to a dead local).  `t1`,
`t2` are the `millis()` reads of the two sends, `a1`, `a2` the radio's
acknowledgements.  Returns the final command state and the send events. -/
def stopMotion (t1 t2 : Nat) (a1 a2 : Bool) (d : RadioPacket) :
    RadioPacket × List SendEv :=
  let d := { d with stop := true }
  let r1 := txCommand t1 d
  let d := r1.1
  if a1 then
    let d := { d with stop := false }
    let r2 := txCommand t2 d
    (r2.1, [⟨r1.2, a1⟩, ⟨r2.2, a2⟩])
  else
    (d, [⟨r1.2, a1⟩])

/-- lookAhead: the Bfront callback, identical to `stopMotion` on the
`lookAhead` flag. -/
def lookAhead (t1 t2 : Nat) (a1 a2 : Bool) (d : RadioPacket) :
    RadioPacket × List SendEv :=
  let d := { d with lookAhead := true }
  let r1 := txCommand t1 d
  let d := r1.1
  if a1 then
    let d := { d with lookAhead := false }
    let r2 := txCommand t2 d
    (r2.1, [⟨r1.2, a1⟩, ⟨r2.2, a2⟩])
  else
    (d, [⟨r1.2, a1⟩])

end V3

/-- A control with no JC_Button query firing this tick (for instance pressed,
but not yet for HELD_TIME, or released less than RELEASE_TIME ago). -/
def qNone : Ino.BtnQ := ⟨false, false, false⟩

/-- A control that has been released for at least RELEASE_TIME, so
`releasedFor(RELEASE_TIME)` reports true. -/
def qSettled : Ino.BtnQ := ⟨false, false, true⟩

/-- A control on its release-edge tick: `wasReleased()` reports true. -/
def qClick : Ino.BtnQ := ⟨false, true, false⟩

/-- A tick on which only the reverse control fires (its release edge). -/
def revClickTick : Ino.TickIn := ⟨qNone, qClick, qNone, qNone⟩

/-- A packet holding one forward click. -/
def dClicked : Ino.RadioPacket := { Ino.initRadioPacket with speed := 51 }

/-- A quiescent packet whose one-shot `stop` flag is armed, as left behind by
`stopMotion` when the first send is not acknowledged. -/
def armedStop : V3.RadioPacket := ⟨0, 0, false, 0, false, true, false, 0⟩

/-- Claim C1: triggering the stop one-shot with an always-acknowledging
transport causes exactly two immediate sends, the first with the stop flag
true and the second with it false, and after the second send the flag stays
cleared whatever the second acknowledgement was; with a transport that never
acknowledges there is exactly one send, the flag stays true in the command
state, and no retry happens.  The same holds for the recenter (`lookAhead`)
one-shot. -/
theorem stopMotion_lookAhead_toggle_confirm :
    ∀ (d : V3.RadioPacket) (t1 t2 : Nat) (a2 : Bool),
      ((V3.stopMotion t1 t2 true a2 d).2.map (fun e => e.frame.stop) = [true, false]
        ∧ (V3.stopMotion t1 t2 true a2 d).1.stop = false)
      ∧ ((V3.stopMotion t1 t2 false a2 d).2.map (fun e => e.frame.stop) = [true]
        ∧ (V3.stopMotion t1 t2 false a2 d).1.stop = true)
      ∧ ((V3.lookAhead t1 t2 true a2 d).2.map (fun e => e.frame.lookAhead) = [true, false]
        ∧ (V3.lookAhead t1 t2 true a2 d).1.lookAhead = false)
      ∧ ((V3.lookAhead t1 t2 false a2 d).2.map (fun e => e.frame.lookAhead) = [true]
        ∧ (V3.lookAhead t1 t2 false a2 d).1.lookAhead = true) := by
  intro d t1 t2 a2
  simp [V3.stopMotion, V3.lookAhead, V3.txCommand]

/-- Claim C2: on a control-loop tick, after the four encoders run, the
transport is invoked exactly once when the change detector is true and zero
times when it is false, each sent frame is stamped with the current tick's
`millis()` read immediately before the send, and at most one send happens
per tick whatever the acknowledgement (a failed send is not retried).  The
same holds of `checkChanges` in the Bounce/BMux variant. -/
theorem gate_sends_once_iff_changed :
    ∀ (now : Nat) (i : Ino.TickIn) (d : Ino.RadioPacket),
      (Ino.loopTick now i d).2.length
          = (if Ino.txBufferChanged (Ino.encode i d) then 1 else 0)
      ∧ (∀ f ∈ (Ino.loopTick now i d).2, f.serial = now % 4294967296)
      ∧ (Ino.loopTick now i d).2.length ≤ 1
      ∧ (∀ e : V3.RadioPacket,
          (V3.checkChanges now e).2.length
              = (if V3.txBufferChanged e then 1 else 0)
          ∧ ∀ f ∈ (V3.checkChanges now e).2, f.serial = now % 4294967296) := by
  intro now i d
  refine ⟨?_, ?_, ?_, ?_⟩
  · unfold Ino.loopTick Ino.checkChanges
    split <;> simp
  · unfold Ino.loopTick Ino.checkChanges Ino.txCommand
    split <;> simp
  · unfold Ino.loopTick Ino.checkChanges
    split <;> simp
  · intro e
    constructor
    · unfold V3.checkChanges
      split <;> simp
    · unfold V3.checkChanges V3.txCommand
      split <;> simp

/-- Claim C2 witness: on a tick that transmits, the single frame sent is
stamped with the tick's time. -/
theorem gate_sends_once_iff_changed_witness :
    { dClicked with serial := 5 % 4294967296 }.serial = 5 % 4294967296 :=
  (gate_sends_once_iff_changed 5 ⟨qNone, qNone, qNone, qNone⟩ dClicked).2.1
    { dClicked with serial := 5 % 4294967296 } (by decide)

/-- Claim C3 counterexample: the change detector of the flag-carrying variant
is not true on every state with a non-sequence field away from quiescent —
on the state whose only nonzero field is the armed `stop` flag it returns
false. -/
theorem txBufferChanged_not_iff_nonquiescent :
    ¬ (V3.txBufferChanged armedStop = true ↔
        (armedStop.speed ≠ 0 ∨ armedStop.speed_hold = true ∨ armedStop.turn ≠ 0
          ∨ armedStop.turn_hold = true ∨ armedStop.stop = true
          ∨ armedStop.lookAhead = true ∨ armedStop.options ≠ 0)) := by
  decide

/-- Claim C3 amended: `txBufferChanged` is a pure predicate on the command
state, true exactly when one of speed, speed_hold, turn, turn_hold, options
differs from its quiescent value; in the flag-carrying variant the one-shot
`stop` and `lookAhead` flags are not inspected. -/
theorem txBufferChanged_iff_payload_nonquiescent :
    (∀ d : Ino.RadioPacket,
      Ino.txBufferChanged d = true ↔
        (d.speed ≠ 0 ∨ d.speed_hold = true ∨ d.turn ≠ 0
          ∨ d.turn_hold = true ∨ d.options ≠ 0))
    ∧ (∀ d : V3.RadioPacket,
      V3.txBufferChanged d = true ↔
        (d.speed ≠ 0 ∨ d.speed_hold = true ∨ d.turn ≠ 0
          ∨ d.turn_hold = true ∨ d.options ≠ 0)) := by
  constructor
  · intro d
    unfold Ino.txBufferChanged
    split_ifs <;> simp_all
  · intro d
    unfold V3.txBufferChanged
    split_ifs <;> simp_all

/-- Claim C3 amended witness: the iff evaluated on the packet holding one
forward click. -/
theorem txBufferChanged_iff_payload_nonquiescent_witness :
    Ino.txBufferChanged dClicked = true ↔
      (dClicked.speed ≠ 0 ∨ dClicked.speed_hold = true ∨ dClicked.turn ≠ 0
        ∨ dClicked.turn_hold = true ∨ dClicked.options ≠ 0) :=
  txBufferChanged_iff_payload_nonquiescent.1 dClicked

/-- The reverse control of the Bounce/BMux variant after being pressed for
only 100 ms — far below HELD_TIME = 1000 ms — with no edge this tick. -/
def bRev100 : V3.BounceBtn := ⟨100, false, false, 100⟩

/-- Claim C4: code-bug evidence.  `checkREV` of the Bounce variants sets the
speed hold flag after a press of only 100 ms, far below HELD_TIME = 1000 ms:
its hold branch tests only that `held()` is nonzero, while the claim (and
the other three controls, which compare against HELD_TIME) requires the
press to have lasted at least the hold threshold. -/
theorem checkREV_hold_fires_below_threshold :
    (V3.checkREV bRev100 V3.initRadioPacket).2.speed_hold = true
    ∧ (V3.checkREV bRev100 V3.initRadioPacket).2.speed = 0
    ∧ bRev100.held < V3.HELD_TIME := by
  decide

/-- A three-tick run of the JC_Button variant realizing the claim C5
scenario: the forward control is pressed on the first tick and released on
the second (its release edge fires there), well before HELD_TIME, while the
reverse, right and left controls stay released throughout, so their
`releasedFor(RELEASE_TIME)` query reports true on every tick. -/
def fwdClickRun : List (Nat × Ino.TickIn) :=
  [(10, ⟨qNone, qSettled, qSettled, qSettled⟩),
   (20, ⟨qClick, qSettled, qSettled, qSettled⟩),
   (30, ⟨qNone, qSettled, qSettled, qSettled⟩)]

/-- Claim C5: code-bug evidence.  In the run `fwdClickRun` the forward
control is clicked (press then release before the hold threshold) while
every other control remains released; yet no tick of the run ends with
`speed = SPEEDINC` — every tick ends with `speed = 0` and no frame is ever
transmitted, because `checkREV` runs after `checkFWD` and its
release-settle branch zeroes the speed axis on the very tick of the click. -/
theorem fwd_click_erased_by_rev_settle :
    (Ino.runLoop Ino.initRadioPacket (fwdClickRun.take 1)).1.speed = 0
    ∧ (Ino.runLoop Ino.initRadioPacket (fwdClickRun.take 2)).1.speed = 0
    ∧ (Ino.runLoop Ino.initRadioPacket fwdClickRun).1.speed = 0
    ∧ (Ino.runLoop Ino.initRadioPacket fwdClickRun).2 = [] := by
  decide

/-- A tick on which the forward control has settled released (its
`releasedFor` query true) while the reverse control fires its release edge. -/
def fwdSettledRevClickTick : Ino.TickIn := ⟨qSettled, qClick, qNone, qNone⟩

/-- Claim C6 counterexample: on a tick where the forward control's
`releasedFor(RELEASE_TIME)` query is true but the reverse control fires its
release edge, the command state at the end of the tick has
`speed = SPEEDINC * -1`, not 0 — the claim as stated fails at tick level. -/
theorem releasedFor_not_quiescent_at_tick_end :
    fwdSettledRevClickTick.fwd.releasedForReleaseTime = true
    ∧ (Ino.loopTick 0 fwdSettledRevClickTick Ino.initRadioPacket).1.speed = -51 := by
  decide

/-- checkRIGHT leaves the speed axis, the serial and the options untouched. -/
lemma Ino.checkRIGHT_frame (b : Ino.BtnQ) (d : Ino.RadioPacket) :
    (Ino.checkRIGHT b d).speed = d.speed
    ∧ (Ino.checkRIGHT b d).speed_hold = d.speed_hold
    ∧ (Ino.checkRIGHT b d).serial = d.serial
    ∧ (Ino.checkRIGHT b d).options = d.options := by
  unfold Ino.checkRIGHT
  split_ifs <;> simp

/-- checkLEFT leaves the speed axis, the serial and the options untouched. -/
lemma Ino.checkLEFT_frame (b : Ino.BtnQ) (d : Ino.RadioPacket) :
    (Ino.checkLEFT b d).speed = d.speed
    ∧ (Ino.checkLEFT b d).speed_hold = d.speed_hold
    ∧ (Ino.checkLEFT b d).serial = d.serial
    ∧ (Ino.checkLEFT b d).options = d.options := by
  unfold Ino.checkLEFT
  split_ifs <;> simp

/-- checkFWD leaves the turn axis, the serial and the options untouched. -/
lemma Ino.checkFWD_frame (b : Ino.BtnQ) (d : Ino.RadioPacket) :
    (Ino.checkFWD b d).turn = d.turn
    ∧ (Ino.checkFWD b d).turn_hold = d.turn_hold
    ∧ (Ino.checkFWD b d).serial = d.serial
    ∧ (Ino.checkFWD b d).options = d.options := by
  unfold Ino.checkFWD
  split_ifs <;> simp

/-- checkREV leaves the turn axis, the serial and the options untouched. -/
lemma Ino.checkREV_frame (b : Ino.BtnQ) (d : Ino.RadioPacket) :
    (Ino.checkREV b d).turn = d.turn
    ∧ (Ino.checkREV b d).turn_hold = d.turn_hold
    ∧ (Ino.checkREV b d).serial = d.serial
    ∧ (Ino.checkREV b d).options = d.options := by
  unfold Ino.checkREV
  split_ifs <;> simp

/-- Claim C6 amended: on every tick where a control's
`releasedFor(RELEASE_TIME)` query is true, that control's encoder function
leaves its axis delta 0 and its axis hold flag false immediately after it
runs, regardless of the prior command state; this persists to the end of
the tick for the reverse and left controls, which are evaluated last on
their axes. -/
theorem releasedFor_returns_axis_quiescent :
    ∀ (b : Ino.BtnQ) (d : Ino.RadioPacket) (i : Ino.TickIn),
      (b.releasedForReleaseTime = true →
        ((Ino.checkFWD b d).speed = 0 ∧ (Ino.checkFWD b d).speed_hold = false)
        ∧ ((Ino.checkREV b d).speed = 0 ∧ (Ino.checkREV b d).speed_hold = false)
        ∧ ((Ino.checkRIGHT b d).turn = 0 ∧ (Ino.checkRIGHT b d).turn_hold = false)
        ∧ ((Ino.checkLEFT b d).turn = 0 ∧ (Ino.checkLEFT b d).turn_hold = false))
      ∧ (i.rev.releasedForReleaseTime = true →
          (Ino.encode i d).speed = 0 ∧ (Ino.encode i d).speed_hold = false)
      ∧ (i.left.releasedForReleaseTime = true →
          (Ino.encode i d).turn = 0 ∧ (Ino.encode i d).turn_hold = false) := by
  intro b d i
  refine ⟨fun h => ?_, fun h => ?_, fun h => ?_⟩
  · simp [Ino.checkFWD, Ino.checkREV, Ino.checkRIGHT, Ino.checkLEFT, h]
  · unfold Ino.encode
    constructor
    · rw [(Ino.checkLEFT_frame _ _).1, (Ino.checkRIGHT_frame _ _).1]
      simp [Ino.checkREV, h]
    · rw [(Ino.checkLEFT_frame _ _).2.1, (Ino.checkRIGHT_frame _ _).2.1]
      simp [Ino.checkREV, h]
  · unfold Ino.encode
    constructor <;> simp [Ino.checkLEFT, h]

/-- Claim C6 amended witness: the settled-release queries evaluated on the
packet holding one forward click, and at tick level for the reverse
control. -/
theorem releasedFor_returns_axis_quiescent_witness :
    ((Ino.checkFWD qSettled dClicked).speed = 0
      ∧ (Ino.checkFWD qSettled dClicked).speed_hold = false)
    ∧ ((Ino.encode ⟨qNone, qSettled, qNone, qNone⟩ dClicked).speed = 0
      ∧ (Ino.encode ⟨qNone, qSettled, qNone, qNone⟩ dClicked).speed_hold = false) :=
  ⟨((releasedFor_returns_axis_quiescent qSettled dClicked
      ⟨qNone, qSettled, qNone, qNone⟩).1 (by decide)).1,
   (releasedFor_returns_axis_quiescent qSettled dClicked
      ⟨qNone, qSettled, qNone, qNone⟩).2.1 (by decide)⟩

/-- The frames a tick transmits: one stamped frame when the change detector
fires on the encoded state, none otherwise. -/
lemma Ino.loopTick_frames_eq (now : Nat) (i : Ino.TickIn) (d : Ino.RadioPacket) :
    (Ino.loopTick now i d).2 =
      if Ino.txBufferChanged (Ino.encode i d)
      then [{ Ino.encode i d with serial := now % 4294967296 }]
      else [] := by
  unfold Ino.loopTick Ino.checkChanges Ino.txCommand
  split <;> rfl

/-- The serials of the frames a run transmits form a sublist of the reduced
tick times of the run. -/
lemma Ino.runLoop_serials_sublist (d : Ino.RadioPacket) (ts : List (Nat × Ino.TickIn)) :
    ((Ino.runLoop d ts).2.map (fun f => f.serial)).Sublist
      (ts.map (fun p => p.1 % 4294967296)) := by
  induction ts generalizing d with
  | nil => simp [Ino.runLoop]
  | cons t ts ih =>
    show (((Ino.loopTick t.1 t.2 d).2
        ++ (Ino.runLoop (Ino.loopTick t.1 t.2 d).1 ts).2).map (fun f => f.serial)).Sublist _
    rw [List.map_append, Ino.loopTick_frames_eq, List.map_cons]
    split
    · exact List.Sublist.cons₂ _ (ih _)
    · exact List.Sublist.cons _ (ih _)

/-- Claim C7: every send stamps `serial` with the current `millis()` read
immediately before transmitting — gate-driven sends with the tick time,
toggle-driven sends with the read of each of their at most two sends — and
across the consecutive frames of any run the serial is non-decreasing,
under the hypothesis that the `millis()` reads are non-decreasing (and are
the 32-bit values the function returns). -/
theorem serial_stamped_and_monotone :
    (∀ (now : Nat) (i : Ino.TickIn) (d : Ino.RadioPacket),
      ∀ f ∈ (Ino.loopTick now i d).2, f.serial = now % 4294967296)
    ∧ (∀ (t1 t2 : Nat) (a2 : Bool) (d : V3.RadioPacket),
      (V3.stopMotion t1 t2 true a2 d).2.map (fun e => e.frame.serial)
          = [t1 % 4294967296, t2 % 4294967296]
      ∧ (V3.stopMotion t1 t2 false a2 d).2.map (fun e => e.frame.serial)
          = [t1 % 4294967296]
      ∧ (V3.lookAhead t1 t2 true a2 d).2.map (fun e => e.frame.serial)
          = [t1 % 4294967296, t2 % 4294967296]
      ∧ (V3.lookAhead t1 t2 false a2 d).2.map (fun e => e.frame.serial)
          = [t1 % 4294967296])
    ∧ (∀ (d : Ino.RadioPacket) (ts : List (Nat × Ino.TickIn)),
      (ts.map Prod.fst).Pairwise (· ≤ ·) →
      (∀ p ∈ ts, p.1 < 4294967296) →
      ((Ino.runLoop d ts).2.map (fun f => f.serial)).Pairwise (· ≤ ·)) := by
  refine ⟨?_, ?_, ?_⟩
  · intro now i d f hf
    rw [Ino.loopTick_frames_eq] at hf
    split at hf
    · rw [List.mem_singleton] at hf
      rw [hf]
    · simp at hf
  · intro t1 t2 a2 d
    refine ⟨?_, ?_, ?_, ?_⟩ <;> simp [V3.stopMotion, V3.lookAhead, V3.txCommand]
  · intro d ts hmono hb
    have hpw : (ts.map (fun p => p.1 % 4294967296)).Pairwise (· ≤ ·) := by
      have he : ts.map (fun p => p.1 % 4294967296)
          = (ts.map Prod.fst).map (fun x => x % 4294967296) := by
        rw [List.map_map]
        rfl
      rw [he, List.pairwise_map]
      refine List.Pairwise.imp_of_mem ?_ hmono
      intro a b ha hb2 hab
      obtain ⟨p, hp, rfl⟩ := List.mem_map.mp ha
      obtain ⟨q, hq, rfl⟩ := List.mem_map.mp hb2
      rw [Nat.mod_eq_of_lt (hb p hp), Nat.mod_eq_of_lt (hb q hq)]
      exact hab
    exact (hpw.sublist (Ino.runLoop_serials_sublist d ts))

/-- Claim C7 witness: a two-tick run at times 7 and 9, each tick clicking
the reverse control, transmits frames whose serials are non-decreasing. -/
theorem serial_stamped_and_monotone_witness :
    ((Ino.runLoop Ino.initRadioPacket
        [(7, revClickTick), (9, revClickTick)]).2.map (fun f => f.serial)).Pairwise
      (· ≤ ·) :=
  serial_stamped_and_monotone.2.2 Ino.initRadioPacket
    [(7, revClickTick), (9, revClickTick)] (by decide) (by decide)

/-- The forward control of the Bounce/BMux variant held past HELD_TIME, with
its `durationOfPreviousState` counter at 777 before the encoder runs. -/
def bHeld1001 : V3.BounceBtn := ⟨1001, false, false, 777⟩

/-- Claim C8 counterexample: `checkFWD` of the Bounce variants does not
leave the button object unchanged — its hold branch resets the button's
public `durationOfPreviousState` counter from 777 to 0. -/
theorem checkFWD_mutates_button_state :
    (V3.checkFWD bHeld1001 V3.initRadioPacket).1.durationOfPreviousState = 0
    ∧ bHeld1001.durationOfPreviousState = 777 := by
  decide

/-- Claim C8 amended: each per-control encoder performs no transmission (it
only returns the updated record, never a frame) and mutates nothing outside
the command state except that, in the Bounce variants, the hold branch
resets the control's own `durationOfPreviousState` counter: the button's
`held`, `fell` and `rose` readings are untouched, its counter is either
unchanged or reset to 0, and the packet fields of the other axis, the
serial, the options and the one-shot flags are untouched — and in the
JC_Button variant the encoders write only their own axis of the packet. -/
theorem encoders_touch_only_command_state :
    ∀ (b : V3.BounceBtn) (d : V3.RadioPacket) (q : Ino.BtnQ) (e : Ino.RadioPacket),
      ((V3.checkFWD b d).1.held = b.held ∧ (V3.checkFWD b d).1.fell = b.fell
        ∧ (V3.checkFWD b d).1.rose = b.rose
        ∧ ((V3.checkFWD b d).1.durationOfPreviousState = b.durationOfPreviousState
            ∨ (V3.checkFWD b d).1.durationOfPreviousState = 0)
        ∧ (V3.checkFWD b d).2.turn = d.turn
        ∧ (V3.checkFWD b d).2.turn_hold = d.turn_hold
        ∧ (V3.checkFWD b d).2.serial = d.serial
        ∧ (V3.checkFWD b d).2.options = d.options
        ∧ (V3.checkFWD b d).2.stop = d.stop
        ∧ (V3.checkFWD b d).2.lookAhead = d.lookAhead)
      ∧ ((V3.checkREV b d).1.held = b.held ∧ (V3.checkREV b d).1.fell = b.fell
        ∧ (V3.checkREV b d).1.rose = b.rose
        ∧ ((V3.checkREV b d).1.durationOfPreviousState = b.durationOfPreviousState
            ∨ (V3.checkREV b d).1.durationOfPreviousState = 0)
        ∧ (V3.checkREV b d).2.turn = d.turn
        ∧ (V3.checkREV b d).2.turn_hold = d.turn_hold
        ∧ (V3.checkREV b d).2.serial = d.serial
        ∧ (V3.checkREV b d).2.options = d.options
        ∧ (V3.checkREV b d).2.stop = d.stop
        ∧ (V3.checkREV b d).2.lookAhead = d.lookAhead)
      ∧ ((V3.checkRIGHT b d).1.held = b.held ∧ (V3.checkRIGHT b d).1.fell = b.fell
        ∧ (V3.checkRIGHT b d).1.rose = b.rose
        ∧ ((V3.checkRIGHT b d).1.durationOfPreviousState = b.durationOfPreviousState
            ∨ (V3.checkRIGHT b d).1.durationOfPreviousState = 0)
        ∧ (V3.checkRIGHT b d).2.speed = d.speed
        ∧ (V3.checkRIGHT b d).2.speed_hold = d.speed_hold
        ∧ (V3.checkRIGHT b d).2.serial = d.serial
        ∧ (V3.checkRIGHT b d).2.options = d.options
        ∧ (V3.checkRIGHT b d).2.stop = d.stop
        ∧ (V3.checkRIGHT b d).2.lookAhead = d.lookAhead)
      ∧ ((V3.checkLEFT b d).1.held = b.held ∧ (V3.checkLEFT b d).1.fell = b.fell
        ∧ (V3.checkLEFT b d).1.rose = b.rose
        ∧ ((V3.checkLEFT b d).1.durationOfPreviousState = b.durationOfPreviousState
            ∨ (V3.checkLEFT b d).1.durationOfPreviousState = 0)
        ∧ (V3.checkLEFT b d).2.speed = d.speed
        ∧ (V3.checkLEFT b d).2.speed_hold = d.speed_hold
        ∧ (V3.checkLEFT b d).2.serial = d.serial
        ∧ (V3.checkLEFT b d).2.options = d.options
        ∧ (V3.checkLEFT b d).2.stop = d.stop
        ∧ (V3.checkLEFT b d).2.lookAhead = d.lookAhead)
      ∧ ((Ino.checkFWD q e).turn = e.turn ∧ (Ino.checkFWD q e).turn_hold = e.turn_hold
        ∧ (Ino.checkFWD q e).serial = e.serial ∧ (Ino.checkFWD q e).options = e.options)
      ∧ ((Ino.checkREV q e).turn = e.turn ∧ (Ino.checkREV q e).turn_hold = e.turn_hold
        ∧ (Ino.checkREV q e).serial = e.serial ∧ (Ino.checkREV q e).options = e.options)
      ∧ ((Ino.checkRIGHT q e).speed = e.speed
        ∧ (Ino.checkRIGHT q e).speed_hold = e.speed_hold
        ∧ (Ino.checkRIGHT q e).serial = e.serial
        ∧ (Ino.checkRIGHT q e).options = e.options)
      ∧ ((Ino.checkLEFT q e).speed = e.speed
        ∧ (Ino.checkLEFT q e).speed_hold = e.speed_hold
        ∧ (Ino.checkLEFT q e).serial = e.serial
        ∧ (Ino.checkLEFT q e).options = e.options) := by
  intro b d q e
  refine ⟨?_, ?_, ?_, ?_, Ino.checkFWD_frame q e, Ino.checkREV_frame q e,
    Ino.checkRIGHT_frame q e, Ino.checkLEFT_frame q e⟩
  · cases hf : b.fell <;> cases hr : b.rose <;> by_cases hh : b.held > V3.HELD_TIME <;>
      simp [V3.checkFWD, hf, hr, hh]
  · cases hf : b.fell <;> cases hr : b.rose <;> by_cases hh : b.held ≠ 0 <;>
      simp [V3.checkREV, hf, hr, hh]
  · cases hf : b.fell <;> cases hr : b.rose <;> by_cases hh : b.held > V3.HELD_TIME <;>
      simp [V3.checkRIGHT, hf, hr, hh]
  · cases hf : b.fell <;> cases hr : b.rose <;> by_cases hh : b.held > V3.HELD_TIME <;>
      simp [V3.checkLEFT, hf, hr, hh]

/-- Claim C9: in the flag-carrying variant, a command state whose speed,
speed_hold, turn, turn_hold and options are all quiescent never triggers
the tick-level gate, whatever the `stop` and `lookAhead` flags hold:
`txBufferChanged` is false on every such state and `checkChanges` performs
no send, so an armed flag is only ever retransmitted on a later frame
triggered by a nonzero payload field. -/
theorem armed_flags_never_fire_gate :
    ∀ (d : V3.RadioPacket) (now : Nat),
      d.speed = 0 → d.speed_hold = false → d.turn = 0 → d.turn_hold = false →
      d.options = 0 →
      V3.txBufferChanged d = false ∧ (V3.checkChanges now d).2 = [] := by
  intro d now h1 h2 h3 h4 h5
  have hc : V3.txBufferChanged d = false := by
    unfold V3.txBufferChanged
    simp [h1, h2, h3, h4, h5]
  exact ⟨hc, by simp [V3.checkChanges, hc]⟩

/-- Claim C9 witness: the state left behind by a failed stop toggle — the
`stop` flag armed and every payload field quiescent — does not fire the
gate. -/
theorem armed_flags_never_fire_gate_witness :
    V3.txBufferChanged armedStop = false ∧ (V3.checkChanges 0 armedStop).2 = [] :=
  armed_flags_never_fire_gate armedStop 0 rfl rfl rfl rfl rfl

/-- A tick of the button-mode loop returns a state with the same options
value, and every frame it transmits carries that same options value. -/
lemma Ino.loopTick_options (now : Nat) (i : Ino.TickIn) (d : Ino.RadioPacket) :
    (Ino.loopTick now i d).1.options = d.options
    ∧ ∀ f ∈ (Ino.loopTick now i d).2, f.options = d.options := by
  have he : (Ino.encode i d).options = d.options := by
    unfold Ino.encode
    rw [(Ino.checkLEFT_frame _ _).2.2.2, (Ino.checkRIGHT_frame _ _).2.2.2,
      (Ino.checkREV_frame _ _).2.2.2, (Ino.checkFWD_frame _ _).2.2.2]
  unfold Ino.loopTick Ino.checkChanges Ino.txCommand
  split <;> simp [he]

/-- Along any run of the button-mode loop from a state with zero options,
the options stay zero and every transmitted frame carries zero options. -/
lemma Ino.runLoop_options (ts : List (Nat × Ino.TickIn)) :
    ∀ d : Ino.RadioPacket, d.options = 0 →
      (Ino.runLoop d ts).1.options = 0
      ∧ ∀ f ∈ (Ino.runLoop d ts).2, f.options = 0 := by
  induction ts with
  | nil =>
    intro d h
    simp [Ino.runLoop, h]
  | cons t ts ih =>
    intro d h
    have hl := Ino.loopTick_options t.1 t.2 d
    have h1 : (Ino.loopTick t.1 t.2 d).1.options = 0 := by rw [hl.1, h]
    obtain ⟨hs, hrest⟩ := ih _ h1
    refine ⟨hs, ?_⟩
    intro f hf
    show f.options = 0
    have hm : f ∈ (Ino.loopTick t.1 t.2 d).2
        ∨ f ∈ (Ino.runLoop (Ino.loopTick t.1 t.2 d).1 ts).2 := by
      simpa [Ino.runLoop] using hf
    rcases hm with hm | hm
    · rw [hl.2 f hm, h]
    · exact hrest f hm

/-- Claim C10: in button mode no operation of the control loop writes the
options field — each tick returns a state with the options unchanged — so
starting from the zero-initialized packet the options equal 0 in every
reachable state and every transmitted frame carries options = 0 (hence the
change detector's options branch never fires). -/
theorem button_mode_options_zero :
    ∀ (ts : List (Nat × Ino.TickIn)),
      (∀ (now : Nat) (i : Ino.TickIn) (d : Ino.RadioPacket),
        (Ino.loopTick now i d).1.options = d.options)
      ∧ (Ino.runLoop Ino.initRadioPacket ts).1.options = 0
      ∧ ∀ f ∈ (Ino.runLoop Ino.initRadioPacket ts).2, f.options = 0 := by
  intro ts
  exact ⟨fun now i d => (Ino.loopTick_options now i d).1,
    (Ino.runLoop_options ts Ino.initRadioPacket rfl).1,
    (Ino.runLoop_options ts Ino.initRadioPacket rfl).2⟩

/-- The frame a reverse click at time 7 transmits. -/
def dRevFrame : Ino.RadioPacket := ⟨7 % 4294967296, -51, false, 0, false, 0⟩

/-- Claim C10 witness: the frame transmitted by a one-tick run with a
reverse click carries options = 0. -/
theorem button_mode_options_zero_witness : dRevFrame.options = 0 :=
  (button_mode_options_zero [(7, revClickTick)]).2.2 dRevFrame (by decide)

end Carrito
